import Mathlib

/-!
Verification of the AnkiHub add-on overlay / tutorial subsystem.

Shallow embedding of the positioned-modal and guided-tutorial overlay code:
  * `src/ankihub/gui/web/modal.js`    (class `AnkiHubModal`)
  * `src/ankihub/gui/web/tutorial.js` (host entry points, JS variant)
  * `src/tutorial/lib/modal.ts`       (class `Modal`)
  * `src/tutorial/lib/tutorial.ts`    (host entry points, TS variant)
  * `src/unnamed/part_013`            (class `TutorialEffect` and its entry points)

DOM elements are records of the style/class/attribute fields the code touches,
numbers are rationals (CSS pixel values), and the browser event loop is made
explicit (pending `setTimeout` callbacks are counted and fired as separate
steps).  JavaScript truthiness of strings ("" and null are falsy, every other
string is truthy) is modelled explicitly at every `if` that tests a string.
-/

/-! ## DOM element model for the spotlight code

`SpotlightTarget` records exactly the pieces of a target element that
`Modal.applySpotlight` / `Modal.removeSpotlight` (modal.ts) and
`TutorialEffect.applySpotlight` / `TutorialEffect.removeSpotlight` (part_013)
read or write: the class list, the inline `style.pointerEvents` value
("" = no inline value set), the `data-original-pointer-events` attribute
(`none` = attribute absent), and the parent element's inline
`style.backdropFilter` (`none` = the element has no parent element). -/
structure SpotlightTarget where
  classes : List String
  pointerEvents : String
  dataOriginalPointerEvents : Option String
  parentBackdropFilter : Option String
  deriving Repr, DecidableEq

/-- Model of `classList.add(c)`: appends the class unless already present. -/
def classListAdd (cs : List String) (c : String) : List String :=
  if c ∈ cs then cs else cs ++ [c]

/-- Model of `classList.add(...classes)` over several class names. -/
def classListAddMany (cs add : List String) : List String :=
  add.foldl classListAdd cs

/-- Model of `classList.remove(...classes)`: removes every listed class. -/
def classListRemoveMany (cs remove : List String) : List String :=
  cs.filter (fun c => !(remove.contains c))

/-- Model of `spotlightClasses()` from modal.ts: `["ah-spotlight-active"]`, plus
`"ah-with-backdrop"` when the modal has a backdrop.  (In part_013 the push
condition is `options.backdrop || options.modal`; both are captured by the
single boolean argument.) -/
def spotlightClasses (withBackdrop : Bool) : List String :=
  if withBackdrop then ["ah-spotlight-active", "ah-with-backdrop"]
  else ["ah-spotlight-active"]

/-- Model of `applySpotlight` (modal.ts lines 357-374 / part_013 lines 186-203) acting
on a resolved target element: adds the spotlight classes; when
`blockTargetClick` is set, saves the current inline `pointer-events` into the
`data-original-pointer-events` attribute and forces the style to `"none"`;
finally, if the element has a parent, forces the parent's `backdrop-filter`
to `"none"`. -/
def applySpotlightOnTarget (blockTargetClick withBackdrop : Bool)
    (t : SpotlightTarget) : SpotlightTarget :=
  let t1 := { t with classes := classListAddMany t.classes (spotlightClasses withBackdrop) }
  let t2 :=
    if blockTargetClick then
      { t1 with dataOriginalPointerEvents := some t1.pointerEvents,
                pointerEvents := "none" }
    else t1
  match t2.parentBackdropFilter with
  | some _ => { t2 with parentBackdropFilter := some "none" }
  | none => t2

/-- Model of the `removeSpotlight` body (modal.ts lines 376-389 / part_013 lines 205-217)
acting on the target element: removes the spotlight classes, then reads the
`data-original-pointer-events` attribute; `if (originalPointerEvents)` is the
JavaScript truthiness test, true exactly when the attribute is present with a
non-empty value — in that branch the saved value is restored and the
attribute removed, otherwise (attribute absent, or present but empty) the
inline `pointer-events` is cleared and the attribute is left untouched.
The parent's `backdrop-filter` is not touched. -/
def removeSpotlightOnTarget (withBackdrop : Bool)
    (t : SpotlightTarget) : SpotlightTarget :=
  let t1 := { t with classes := classListRemoveMany t.classes (spotlightClasses withBackdrop) }
  match t1.dataOriginalPointerEvents with
  | some v =>
      if v ≠ "" then
        { t1 with pointerEvents := v, dataOriginalPointerEvents := none }
      else
        { t1 with pointerEvents := "" }
  | none => { t1 with pointerEvents := "" }

/-- The `Modal` (modal.ts) view of a spotlighted element: the element itself
together with whether `this.targetElement` still references it.
`Modal.removeSpotlight` starts with `if (!this.targetElement) return;` and
ends with `this.targetElement = null`, so the reference is consumed. -/
structure ModalSpotlightView where
  target : SpotlightTarget
  modalHasRef : Bool
  deriving Repr, DecidableEq

/-- Model of `Modal.removeSpotlight` (modal.ts): no-op when `this.targetElement` is
already null; otherwise runs the restore body on the element and nulls the
reference. -/
def modalRemoveSpotlight (withBackdrop : Bool)
    (w : ModalSpotlightView) : ModalSpotlightView :=
  if w.modalHasRef then
    { target := removeSpotlightOnTarget withBackdrop w.target, modalHasRef := false }
  else w

/-- Model of `TutorialEffect.removeSpotlight` (part_013): same restore body, but the
class keeps `this.targetElement` set, so a second call runs the body again. -/
def effectRemoveSpotlight (withBackdrop : Bool)
    (t : SpotlightTarget) : SpotlightTarget :=
  removeSpotlightOnTarget withBackdrop t

/-! ## AnkiHubModal.positionModal (modal.js lines 410-467)

The in-repo placement algorithm.  `DOMRect` carries the four fields the code
reads from `getBoundingClientRect()`; `bottom` and `right` are the derived
values a real `DOMRect` reports. -/

structure DOMRect where
  top : ℚ
  left : ℚ
  width : ℚ
  height : ℚ
  deriving Repr, DecidableEq

def DOMRect.bottom (r : DOMRect) : ℚ := r.top + r.height

def DOMRect.right (r : DOMRect) : ℚ := r.left + r.width

/-- The `options.position` values the `switch` in `positionModal` matches on;
anything else falls to the `default` (centered) branch, so it is one value. -/
inductive AHPosition
  | top
  | bottom
  | left
  | right
  | center
  deriving Repr, DecidableEq

/-- Model of `AnkiHubModal.positionModal` composed with `_positionModal`
(modal.js lines 402-467): for an anchored position it computes the raw
`top`/`left` for the chosen side, clamps each into
`[10, viewport - modalSize - 10]`, and `_positionModal` then writes
`top + 10` and `left` into the style.  Returns the `(style.top, style.left)`
pair actually applied; `none` for the `default` (center) branch, where the
style is the string `"50%"` with a translate transform instead of pixel
coordinates.  (When `options.target` is null the method returns before any of
this; the caller of this definition supplies a target rectangle.) -/
def positionModal (pos : AHPosition) (targetRect modalRect : DOMRect)
    (viewportWidth viewportHeight : ℚ) : Option (ℚ × ℚ) :=
  let raw : Option (ℚ × ℚ) :=
    match pos with
    | .top => some (targetRect.top - modalRect.height - 10,
        targetRect.left + (targetRect.width - modalRect.width) / 2)
    | .bottom => some (targetRect.bottom + 10,
        targetRect.left + (targetRect.width - modalRect.width) / 2)
    | .left => some (targetRect.top + (targetRect.height - modalRect.height) / 2,
        targetRect.left - modalRect.width - 10)
    | .right => some (targetRect.top + (targetRect.height - modalRect.height) / 2,
        targetRect.right + 10)
    | .center => none
  match raw with
  | none => none
  | some (top, left) =>
      let finalTop := max 10 (min top (viewportHeight - modalRect.height - 10))
      let finalLeft := max 10 (min left (viewportWidth - modalRect.width - 10))
      some (finalTop + 10, finalLeft)

/-- The target rectangle lies fully inside the viewport. -/
def targetRectInViewport (r : DOMRect) (viewportWidth viewportHeight : ℚ) : Prop :=
  0 ≤ r.top ∧ 0 ≤ r.left ∧ r.bottom ≤ viewportHeight ∧ r.right ≤ viewportWidth

instance (r : DOMRect) (vw vh : ℚ) : Decidable (targetRectInViewport r vw vh) := by
  unfold targetRectInViewport; infer_instance

/-- The overlay placed at `p = (styleTop, styleLeft)` stays inside the
viewport: non-negative coordinates and no overflow past the viewport edges. -/
def overlayWithinViewport (modalRect : DOMRect) (viewportWidth viewportHeight : ℚ)
    (p : ℚ × ℚ) : Prop :=
  0 ≤ p.1 ∧ 0 ≤ p.2 ∧ p.1 + modalRect.height ≤ viewportHeight ∧
    p.2 + modalRect.width ≤ viewportWidth

instance (m : DOMRect) (vw vh : ℚ) (p : ℚ × ℚ) :
    Decidable (overlayWithinViewport m vw vh p) := by
  unfold overlayWithinViewport; infer_instance

/-! ## Modal (modal.ts) lifecycle model

State of one `Modal` instance, with the surrounding browser bookkeeping the
claims talk about: whether the host element is attached to `document.body`,
whether an `autoUpdate` subscription from floating-ui is currently installed,
the (unreferenced) 200 ms detach timeouts scheduled by `close()`, and the
`resizeTimeout` field. -/

structure ModalOptions where
  body : String := ""
  footer : String := ""
  showCloseButton : Bool := true
  closeOnBackdropClick : Bool := false
  backdrop : Bool := true
  target : Option String := none
  showArrow : Bool := true
  blockTargetClick : Bool := false
  deriving Repr, DecidableEq

structure TSModal where
  options : ModalOptions
  isVisible : Bool
  targetElement : Option SpotlightTarget
  cleanUpdateActive : Bool
  resizeTimeout : Option Nat
  attached : Bool
  pendingDetach : Nat
  arrowPresent : Bool
  deriving Repr, DecidableEq

/-- Model of `Modal.createModal` (modal.ts lines 44-97), restricted to the state it
writes: it builds the detached DOM subtree, and — inside
`if (this.options.body)` — the line
`if (this.targetElement) { this.cleanUpdateHandler = autoUpdate(...) }`.
`this.options.body` is truthy when the body string is non-empty. -/
def Modal.createModal (m : TSModal) : TSModal :=
  if m.options.body ≠ "" ∧ m.targetElement.isSome then
    { m with cleanUpdateActive := true }
  else m

/-- The `Modal` constructor (modal.ts lines 28-42): fields initialised
(`isVisible = false`, `targetElement = null`, no subscription, no timers,
host element built but not attached), then `createModal()` and
`bindEvents()` (which installs no window-level listener in this variant). -/
def Modal.construct (options : ModalOptions) : TSModal :=
  Modal.createModal
    { options := options, isVisible := false, targetElement := none,
      cleanUpdateActive := false, resizeTimeout := none, attached := false,
      pendingDetach := 0, arrowPresent := false }

/-- Model of `Modal.applySpotlight` (modal.ts lines 357-374) at the instance level:
`if (!this.targetElement) return;`, otherwise mutate the element. -/
def Modal.applySpotlightState (m : TSModal) : TSModal :=
  match m.targetElement with
  | none => m
  | some t =>
      let t2 := applySpotlightOnTarget m.options.blockTargetClick m.options.backdrop t
      { m with targetElement := some t2 }

/-- Model of `Modal.removeSpotlight` (modal.ts lines 376-389) at the instance level:
no-op when `this.targetElement` is null, otherwise the element is restored
(per `removeSpotlightOnTarget`) and the reference nulled. -/
def Modal.removeSpotlightState (m : TSModal) : TSModal :=
  match m.targetElement with
  | none => m
  | some _ => { m with targetElement := none }

/-- Model of `Modal.show` (modal.ts lines 296-315): no-op when visible; otherwise
appends the host element to `document.body`, resolves `options.target` via
`document.querySelector` (the `resolve` argument), applies the spotlight
(which silently returns when resolution failed), creates the arrow, runs a
single `positionModal` computation when a target element exists (installing
no subscription), and flags the instance visible. -/
def Modal.show (resolve : String → Option SpotlightTarget) (m : TSModal) : TSModal :=
  if m.isVisible then m
  else
    let m1 := { m with attached := true }
    let m2 :=
      match m1.options.target with
      | some sel =>
          Modal.applySpotlightState { m1 with targetElement := resolve sel }
      | none => m1
    let m3 := { m2 with arrowPresent := m2.options.showArrow }
    { m3 with isVisible := true }

/-- Model of `Modal.close` (modal.ts lines 317-334): no-op when not visible; otherwise
calls `this.cleanUpdateHandler?.()` (releasing any auto-update subscription),
removes the spotlight, removes the arrow, and schedules a 200 ms `setTimeout`
that detaches the host element — the timeout handle is not stored, so nothing
ever cancels it. -/
def Modal.close (m : TSModal) : TSModal :=
  if !m.isVisible then m
  else
    let m1 := { m with cleanUpdateActive := false }
    let m2 := Modal.removeSpotlightState m1
    let m3 := { m2 with arrowPresent := false }
    { m3 with pendingDetach := m3.pendingDetach + 1, isVisible := false }

/-- Model of `Modal.destroy` (modal.ts lines 336-347): `close()`, `removeSpotlight()`,
clear `resizeTimeout` if set, remove the arrow if present.  Every access on
this path is behind a null check in the source, so the operation is total. -/
def Modal.destroy (m : TSModal) : TSModal :=
  let m1 := Modal.close m
  let m2 := Modal.removeSpotlightState m1
  let m3 := { m2 with resizeTimeout := none }
  { m3 with arrowPresent := false }

/-- Firing one of the 200 ms timeouts scheduled by `close()`: the callback
removes the host element from its parent if it still has one. -/
def Modal.fireDetach (m : TSModal) : TSModal :=
  if m.pendingDetach = 0 then m
  else { m with pendingDetach := m.pendingDetach - 1, attached := false }

/-- The operations a host/user can interleave on one `Modal` instance after
construction. -/
inductive ModalOp
  | opShow (resolve : String → Option SpotlightTarget)
  | opClose
  | opDestroy
  | opFireDetach

def ModalOp.apply (m : TSModal) : ModalOp → TSModal
  | .opShow resolve => Modal.show resolve m
  | .opClose => Modal.close m
  | .opDestroy => Modal.destroy m
  | .opFireDetach => Modal.fireDetach m

/-- States a `Modal` instance can actually be in: constructed with some
options, then any interleaving of show / close / destroy / timer firings. -/
def ModalReachable (m : TSModal) : Prop :=
  ∃ (options : ModalOptions) (ops : List ModalOp),
    m = ops.foldl ModalOp.apply (Modal.construct options)

/-! ## AnkiHubModal (modal.js) lifecycle model

This variant saves/restores `z-index` rather than `pointer-events`, installs a
window `resize` listener in `bindEvents`, and — unlike modal.ts — its
`applySpotlight` guards on `this.options.target` (the selector) instead of on
`this.targetElement` (the resolved element), then dereferences
`this.targetElement` unconditionally.  Operations that can hit a null
dereference in the source are given in `Except`, with `.error` exactly at the
source's unguarded accesses. -/

structure AHElem where
  classes : List String
  zIndex : String
  dataOriginalZIndex : Option String
  parentBackdropFilter : Option String
  deriving Repr, DecidableEq

structure AHModalOptions where
  body : String := ""
  footer : String := ""
  showCloseButton : Bool := true
  closeOnBackdropClick : Bool := false
  target : Option String := none
  position : AHPosition := .center
  showArrow : Bool := true
  deriving Repr, DecidableEq

structure AHModal where
  options : AHModalOptions
  isVisible : Bool
  targetElement : Option AHElem
  resizeListenerInstalled : Bool
  resizeTimeout : Option Nat
  attached : Bool
  pendingDetach : Nat
  arrowPresent : Bool
  deriving Repr, DecidableEq

/-- The `AnkiHubModal` constructor (modal.js lines 2-23): fields initialised,
DOM built detached, and `bindEvents()` installs the window `resize`
listener. -/
def AHModal.construct (options : AHModalOptions) : AHModal :=
  { options := options, isVisible := false, targetElement := none,
    resizeListenerInstalled := true, resizeTimeout := none, attached := false,
    pendingDetach := 0, arrowPresent := false }

/-- Model of `AnkiHubModal.applySpotlight` (modal.js lines 372-384):
`if (!this.options.target) return;` — then `this.targetElement.classList.add`,
the z-index save/set, and `this.targetElement.parentElement.style` are all
dereferenced without checking that the selector actually resolved or that the
element has a parent; either null produces a TypeError. -/
def AHModal.applySpotlight (m : AHModal) : Except String AHModal :=
  if m.options.target = none then .ok m
  else
    match m.targetElement with
    | none => .error "TypeError: this.targetElement is null in applySpotlight"
    | some t =>
        let t1 := { t with classes := classListAdd t.classes "ah-spotlight-active",
                           dataOriginalZIndex := some t.zIndex, zIndex := "10001" }
        match t1.parentBackdropFilter with
        | none => .error "TypeError: this.targetElement.parentElement is null in applySpotlight"
        | some _ =>
            .ok { m with targetElement := some { t1 with parentBackdropFilter := some "none" } }

/-- Model of `AnkiHubModal.removeSpotlight` (modal.js lines 386-400): guarded by
`if (!this.targetElement) return;`; restores the saved z-index with the same
truthiness pattern as the pointer-events restore, and nulls the reference. -/
def AHModal.removeSpotlight (m : AHModal) : AHModal :=
  match m.targetElement with
  | none => m
  | some _ => { m with targetElement := none }

/-- Model of `AnkiHubModal.show` (modal.js lines 319-337): no-op when visible;
attaches the host element; when `options.target` is set, resolves it with
`document.querySelector` and calls `applySpotlight` (which throws when the
selector resolved to nothing); then `createArrow`, `positionModal`,
`updateArrowPosition`, and the visibility flag. -/
def AHModal.show (resolve : String → Option AHElem) (m : AHModal) : Except String AHModal :=
  if m.isVisible then .ok m
  else
    let m1 := { m with attached := true }
    let res : Except String AHModal :=
      match m1.options.target with
      | some sel => AHModal.applySpotlight { m1 with targetElement := resolve sel }
      | none => .ok m1
    match res with
    | .error e => .error e
    | .ok m2 =>
        let m3 := { m2 with arrowPresent := m2.options.showArrow }
        .ok { m3 with isVisible := true }

/-- Model of `AnkiHubModal.close` (modal.js lines 339-356): no-op when not visible;
removes the spotlight and arrow, and schedules the unreferenced 200 ms detach
timeout.  All accesses on this path are null-guarded in the source. -/
def AHModal.close (m : AHModal) : AHModal :=
  if !m.isVisible then m
  else
    let m1 := AHModal.removeSpotlight m
    let m2 := { m1 with arrowPresent := false }
    { m2 with pendingDetach := m2.pendingDetach + 1, isVisible := false }

/-- Model of `AnkiHubModal.destroy` (modal.js lines 358-370): `close()`, then
`window.removeEventListener("resize", this.resizeHandler)` unconditionally,
`removeSpotlight()`, clearing `resizeTimeout` if set, and removing the arrow
if present.  All accesses are null-guarded in the source, so it is total. -/
def AHModal.destroy (m : AHModal) : AHModal :=
  let m1 := AHModal.close m
  let m2 := { m1 with resizeListenerInstalled := false }
  let m3 := AHModal.removeSpotlight m2
  let m4 := { m3 with resizeTimeout := none }
  { m4 with arrowPresent := false }

/-! ## Tutorial sequencer state (tutorial.ts)

The module-level mutable state of `src/tutorial/lib/tutorial.ts`:
`activeModal` (the modal the sequencer owns) and `targetResizeHandler` (the
window `resize` listener installed by `highlightTutorialTarget`).  Overlays
are identified by a creation counter; `liveOverlays` is the set of modals
that have been constructed and not yet destroyed. -/

structure TutorialState where
  activeModal : Option Nat
  liveOverlays : List Nat
  resizeHandler : Option Nat
  nextId : Nat
  deriving Repr, DecidableEq

/-- The initial module state: no overlay, no listener. -/
def TutorialState.start : TutorialState :=
  { activeModal := none, liveOverlays := [], resizeHandler := none, nextId := 0 }

/-- Model of `destroyActiveTutorialModal` (tutorial.ts lines 7-12): destroys the
active modal, if any, and clears the reference.  It does not touch
`targetResizeHandler`. -/
def destroyActiveTutorialModal (s : TutorialState) : TutorialState :=
  match s.activeModal with
  | some id =>
      { s with activeModal := none, liveOverlays := s.liveOverlays.filter (· ≠ id) }
  | none => s

/-- Shared shape of `promptForOnboardingTour`, `showTutorialModal` and
`addTutorialBackdrop` (tutorial.ts lines 14-35, 47-77, 134-139): first
`destroyActiveTutorialModal()`, then construct a new `Modal`, `show()` it and
store it in `activeModal`.  None of them touches `targetResizeHandler`. -/
def tutorialCreateModal (s : TutorialState) : TutorialState :=
  let s1 := destroyActiveTutorialModal s
  { s1 with liveOverlays := s1.liveOverlays ++ [s1.nextId],
            activeModal := some s1.nextId, nextId := s1.nextId + 1 }

def promptForOnboardingTour (s : TutorialState) : TutorialState :=
  tutorialCreateModal s

def showTutorialModal (s : TutorialState) : TutorialState :=
  tutorialCreateModal s

def addTutorialBackdrop (s : TutorialState) : TutorialState :=
  tutorialCreateModal s

/-- Model of `highlightTutorialTarget` (tutorial.ts lines 85-119): destroy the active
modal, construct and show the new one, store it — and only then remove any
previously installed `targetResizeHandler` and install a fresh one (tagged
here with the id of the overlay it was created for). -/
def highlightTutorialTarget (s : TutorialState) : TutorialState :=
  let s1 := tutorialCreateModal s
  { s1 with resizeHandler := s1.activeModal }

/-- The host-callable entry points of tutorial.ts as a step alphabet. -/
inductive TutorialOp
  | prompt
  | showModal
  | highlight
  | backdrop
  | destroyActive
  deriving Repr, DecidableEq

def TutorialOp.apply (s : TutorialState) : TutorialOp → TutorialState
  | .prompt => promptForOnboardingTour s
  | .showModal => showTutorialModal s
  | .highlight => highlightTutorialTarget s
  | .backdrop => addTutorialBackdrop s
  | .destroyActive => destroyActiveTutorialModal s

/-- Module states reachable from page load through host calls. -/
def TutorialReachable (s : TutorialState) : Prop :=
  ∃ ops : List TutorialOp, s = ops.foldl TutorialOp.apply TutorialState.start

/-! ## Resize-notification command strings (C7)

`highlightTutorialTarget` installs a window resize handler.  In tutorial.ts
(lines 106-118) and part_013 (lines 356-368) it sends
`ankihub_tutorial_target_resize:step:top:left:width:height`; the handler in
src/ankihub/gui/web/tutorial.js (lines 57-68) destructures only
`{ top, left, width }` and sends a command without the height field. -/

def tutorialTargetResizeCommandTS (currentStep top left width height : Int) : String :=
  "ankihub_tutorial_target_resize:" ++ toString currentStep ++ ":" ++ toString top
    ++ ":" ++ toString left ++ ":" ++ toString width ++ ":" ++ toString height

def tutorialTargetResizeCommandJS (currentStep top left width : Int) : String :=
  "ankihub_tutorial_target_resize:" ++ toString currentStep ++ ":" ++ toString top
    ++ ":" ++ toString left ++ ":" ++ toString width

/-- The bridge commands sent by one invocation of the tutorial.ts resize
handler: nothing when `modal.targetElement` is null (the guard on line 107),
otherwise exactly one command built from the target's current bounding
rectangle. -/
def resizeEventCommandsTS (currentStep : Int)
    (targetRect : Option (Int × Int × Int × Int)) : List String :=
  match targetRect with
  | none => []
  | some (top, left, width, height) =>
      [tutorialTargetResizeCommandTS currentStep top left width height]

/-! ## TutorialEffect.create (part_013 lines 91-153), subscription part

Unlike modal.ts, this variant resolves `options.target` during `create()` and
only then tests it, so its `autoUpdate` installation is live code. -/

structure TutorialEffectState where
  optionsModal : String
  optionsTarget : Option String
  targetElement : Option SpotlightTarget
  cleanUpdateActive : Bool
  deriving Repr, DecidableEq

/-- Model of `TutorialEffect.create`: inside `if (this.options.target)`, sets
`this.targetElement = getTargetElement(this.options.target)` and then, when a
modal markup is present (`if (this.options.modal)`), installs
`this.cleanUpdateHandler = autoUpdate(...)`. -/
def TutorialEffect.create (resolve : String → Option SpotlightTarget)
    (optionsModal : String) (optionsTarget : Option String) : TutorialEffectState :=
  match optionsTarget with
  | some sel =>
      { optionsModal := optionsModal, optionsTarget := optionsTarget,
        targetElement := resolve sel,
        cleanUpdateActive := optionsModal != "" }
  | none =>
      { optionsModal := optionsModal, optionsTarget := optionsTarget,
        targetElement := none, cleanUpdateActive := false }

/-! ## Helper lemmas -/

/-- Removing the spotlight classes twice removes them once. -/
lemma classListRemoveMany_idem (cs S : List String) :
    classListRemoveMany (classListRemoveMany cs S) S = classListRemoveMany cs S := by
  simp [classListRemoveMany, List.filter_filter]

/-- The clamped anchored coordinates of `AnkiHubModal.positionModal` stay in
the viewport as soon as the overlay itself fits with its 10 px margins. -/
lemma clampedPositionWithinViewport (modalRect : DOMRect) (vw vh : ℚ)
    (hw : modalRect.width + 20 ≤ vw) (hh : modalRect.height + 20 ≤ vh)
    (rawTop rawLeft : ℚ) :
    overlayWithinViewport modalRect vw vh
      (max 10 (min rawTop (vh - modalRect.height - 10)) + 10,
       max 10 (min rawLeft (vw - modalRect.width - 10))) := by
  have h1 : (10 : ℚ) ≤ max 10 (min rawTop (vh - modalRect.height - 10)) :=
    le_max_left _ _
  have h2 : max 10 (min rawTop (vh - modalRect.height - 10)) ≤ vh - modalRect.height - 10 :=
    max_le (by linarith) (min_le_right _ _)
  have h3 : (10 : ℚ) ≤ max 10 (min rawLeft (vw - modalRect.width - 10)) :=
    le_max_left _ _
  have h4 : max 10 (min rawLeft (vw - modalRect.width - 10)) ≤ vw - modalRect.width - 10 :=
    max_le (by linarith) (min_le_right _ _)
  refine ⟨?_, ?_, ?_, ?_⟩ <;> dsimp only <;> linarith

/-! ## Claim C1 -/

/-- C1 counterexample: with a 100 × 100 viewport, a target rectangle fully
inside it, and a 200 × 200 overlay, `positionModal` (position "bottom")
clamps to `finalLeft = 10`, and the overlay overflows the right viewport
edge (10 + 200 > 100), so the computed position does not keep the overlay's
bounding box inside the viewport. -/
theorem C1_counterexample :
    targetRectInViewport ⟨10, 10, 20, 20⟩ 100 100 ∧
    positionModal .bottom ⟨10, 10, 20, 20⟩ ⟨0, 0, 200, 200⟩ 100 100 = some (20, 10) ∧
    ¬ overlayWithinViewport ⟨0, 0, 200, 200⟩ 100 100 (20, 10) := by
  refine ⟨?_, ?_, ?_⟩
  · simp only [targetRectInViewport, DOMRect.bottom, DOMRect.right]
    norm_num
  · simp only [positionModal, DOMRect.bottom]
    norm_num
  · simp only [overlayWithinViewport]
    norm_num

/-- C1 (amended): for every anchored position, if the target rectangle lies
fully inside the viewport AND the overlay itself fits in the viewport with
its 10 px margins (`modalRect.width + 20 ≤ innerWidth`,
`modalRect.height + 20 ≤ innerHeight`), the applied `top`/`left` are
non-negative, `top + height ≤ innerHeight` and `left + width ≤ innerWidth`.
Without the fitting hypothesis the clamp `Math.max(10, ...)` wins and the
overlay overflows (see the counterexample). -/
theorem C1_anchored_position_within_viewport
    (pos : AHPosition) (targetRect modalRect : DOMRect) (vw vh : ℚ)
    (hpos : pos ≠ .center)
    (htarget : targetRectInViewport targetRect vw vh)
    (hw : modalRect.width + 20 ≤ vw) (hh : modalRect.height + 20 ≤ vh) :
    ∃ p, positionModal pos targetRect modalRect vw vh = some p ∧
      overlayWithinViewport modalRect vw vh p := by
  cases pos with
  | center => exact absurd rfl hpos
  | top => exact ⟨_, rfl, clampedPositionWithinViewport modalRect vw vh hw hh _ _⟩
  | bottom => exact ⟨_, rfl, clampedPositionWithinViewport modalRect vw vh hw hh _ _⟩
  | left => exact ⟨_, rfl, clampedPositionWithinViewport modalRect vw vh hw hh _ _⟩
  | right => exact ⟨_, rfl, clampedPositionWithinViewport modalRect vw vh hw hh _ _⟩

/-- C1 witness: a concrete anchored overlay that fits (50 × 40 in a
100 × 100 viewport, target fully inside) is placed fully inside the
viewport. -/
theorem C1_anchored_position_within_viewport_witness :
    ∃ p, positionModal .bottom ⟨10, 10, 20, 20⟩ ⟨0, 0, 50, 40⟩ 100 100 = some p ∧
      overlayWithinViewport ⟨0, 0, 50, 40⟩ 100 100 p :=
  C1_anchored_position_within_viewport .bottom ⟨10, 10, 20, 20⟩ ⟨0, 0, 50, 40⟩ 100 100
    (by simp) (by refine ⟨by norm_num, by norm_num, ?_, ?_⟩ <;> norm_num [DOMRect.bottom, DOMRect.right])
    (by norm_num) (by norm_num)

/-! ## Claim C5 -/

/-- C5 counterexample: when no inline `pointer-events` value was set
(prior value `""`), `applySpotlight` with click-blocking followed by
`removeSpotlight` does NOT remove the `data-original-pointer-events`
bookkeeping attribute: the restore branch tests JavaScript truthiness, the
stored empty string is falsy, and the `else` branch never calls
`removeAttribute`, so the attribute stays present (with empty value). -/
theorem C5_counterexample :
    ¬ ((removeSpotlightOnTarget true
        (applySpotlightOnTarget true true
          ⟨[], "", none, none⟩)).dataOriginalPointerEvents = none) := by
  decide

/-- C5 (amended): `applySpotlight` with `blockTargetClick` followed by
`removeSpotlight` restores the target's inline `pointer-events` to exactly
its prior value `v` (both for `v = ""` and non-empty `v` such as `"auto"`);
the bookkeeping attribute is removed when `v` is non-empty, but when no
inline value was set it remains present with empty value. -/
theorem C5_pointer_events_roundtrip (withBackdrop : Bool) (t : SpotlightTarget) :
    (removeSpotlightOnTarget withBackdrop
        (applySpotlightOnTarget true withBackdrop t)).pointerEvents = t.pointerEvents ∧
    (removeSpotlightOnTarget withBackdrop
        (applySpotlightOnTarget true withBackdrop t)).dataOriginalPointerEvents =
      (if t.pointerEvents = "" then some "" else none) := by
  unfold applySpotlightOnTarget removeSpotlightOnTarget
  cases hP : t.parentBackdropFilter <;>
    by_cases h : t.pointerEvents = "" <;>
      simp [hP, h]

/-! ## Claim C6 -/

/-- C6 counterexample (TutorialEffect variant, part_013): with prior inline
`pointer-events` `"auto"`, after `applySpotlight` the first
`removeSpotlight` restores `"auto"` and deletes the saved attribute; a
second `removeSpotlight` finds no attribute and resets the inline value to
`""`, so two calls are not equivalent to one. -/
theorem C6_counterexample :
    effectRemoveSpotlight true (effectRemoveSpotlight true
        (applySpotlightOnTarget true true ⟨[], "auto", none, none⟩)) ≠
      effectRemoveSpotlight true
        (applySpotlightOnTarget true true ⟨[], "auto", none, none⟩) := by
  decide

/-- C6 (amended): in the `Modal` (modal.ts) variant `removeSpotlight` is
idempotent for every target, because the first call nulls
`this.targetElement` and the second returns immediately.  In the
`TutorialEffect` (part_013) variant, which keeps the reference, calling
`removeSpotlight` twice after `applySpotlight` equals calling it once
exactly when the pre-spotlight inline `pointer-events` value was empty; for
a non-empty prior value the second call resets the restored value to `""`. -/
theorem C6_remove_spotlight_idempotence (withBackdrop : Bool)
    (w : ModalSpotlightView) (t : SpotlightTarget) :
    modalRemoveSpotlight withBackdrop (modalRemoveSpotlight withBackdrop w) =
      modalRemoveSpotlight withBackdrop w ∧
    (effectRemoveSpotlight withBackdrop (effectRemoveSpotlight withBackdrop
        (applySpotlightOnTarget true withBackdrop t)) =
      effectRemoveSpotlight withBackdrop (applySpotlightOnTarget true withBackdrop t) ↔
      t.pointerEvents = "") := by
  constructor
  · unfold modalRemoveSpotlight
    by_cases h : w.modalHasRef <;> simp [h]
  · unfold effectRemoveSpotlight applySpotlightOnTarget removeSpotlightOnTarget
    cases hP : t.parentBackdropFilter <;>
      by_cases h : t.pointerEvents = "" <;>
        simp [hP, h, classListRemoveMany_idem, SpotlightTarget.mk.injEq]
    all_goals exact fun hc => h hc.symm

/-! ## Claim C9 -/

/-- C9 counterexample: a spotlighted target whose parent carries
`backdrop-filter: blur(8px)` — `applySpotlight` forces the parent's
backdrop-filter to `"none"`, and `removeSpotlight` never restores it, so
after the spotlight is removed the parent's style is not its prior value. -/
theorem C9_counterexample :
    (removeSpotlightOnTarget true (applySpotlightOnTarget true true
        ⟨[], "", none, some "blur(8px)"⟩)).parentBackdropFilter ≠
      some "blur(8px)" := by
  decide

/-- C9 (amended): `applySpotlight` forces the parent's `backdrop-filter` to
`"none"` whenever the target has a parent element, and `removeSpotlight`
does not touch it, so after the apply/remove round trip the parent's
backdrop-filter is `"none"` (not its prior value) whenever a parent
exists. -/
theorem C9_backdrop_filter_forced_off (blockTargetClick withBackdrop : Bool)
    (t : SpotlightTarget) :
    (removeSpotlightOnTarget withBackdrop
        (applySpotlightOnTarget blockTargetClick withBackdrop t)).parentBackdropFilter =
      t.parentBackdropFilter.map (fun _ => "none") := by
  unfold applySpotlightOnTarget removeSpotlightOnTarget
  cases blockTargetClick <;>
    cases hP : t.parentBackdropFilter <;>
      cases hA : t.dataOriginalPointerEvents <;>
        simp [hP, hA] <;> split <;> simp

/-! ## Lifecycle helper lemmas for the Modal (modal.ts) model -/

/-- The method `show` never writes `cleanUpdateHandler`. -/
lemma Modal.show_cleanUpdateActive (resolve : String → Option SpotlightTarget)
    (m : TSModal) :
    (Modal.show resolve m).cleanUpdateActive = m.cleanUpdateActive := by
  unfold Modal.show Modal.applySpotlightState
  split
  · rfl
  · cases hT : m.options.target <;> simp [hT] <;> cases resolve _ <;> rfl

/-- The method `show` never touches the pending 200 ms detach timeouts. -/
lemma Modal.show_pendingDetach (resolve : String → Option SpotlightTarget)
    (m : TSModal) :
    (Modal.show resolve m).pendingDetach = m.pendingDetach := by
  unfold Modal.show Modal.applySpotlightState
  split
  · rfl
  · cases hT : m.options.target <;> simp [hT] <;> cases resolve _ <;> rfl

/-- After `show` the instance is always flagged visible (it was either
already visible, or the call just set the flag). -/
lemma Modal.show_isVisible (resolve : String → Option SpotlightTarget)
    (m : TSModal) (h : m.isVisible = false) :
    (Modal.show resolve m).isVisible = true ∧ (Modal.show resolve m).attached = true := by
  unfold Modal.show Modal.applySpotlightState
  rw [if_neg (by simp [h])]
  cases hT : m.options.target <;> simp [hT] <;> cases resolve _ <;> rfl

/-- At the instance level `removeSpotlight` only writes `targetElement`. -/
lemma Modal.removeSpotlightState_fields (m : TSModal) :
    (Modal.removeSpotlightState m).cleanUpdateActive = m.cleanUpdateActive ∧
    (Modal.removeSpotlightState m).pendingDetach = m.pendingDetach ∧
    (Modal.removeSpotlightState m).attached = m.attached ∧
    (Modal.removeSpotlightState m).isVisible = m.isVisible ∧
    (Modal.removeSpotlightState m).resizeTimeout = m.resizeTimeout := by
  unfold Modal.removeSpotlightState
  cases m.targetElement <;> exact ⟨rfl, rfl, rfl, rfl, rfl⟩

/-- The method `close` leaves the subscription flag cleared (it either clears it or the
instance was not visible and it is untouched). -/
lemma Modal.close_cleanUpdateActive_of (m : TSModal)
    (h : m.cleanUpdateActive = false) :
    (Modal.close m).cleanUpdateActive = false := by
  unfold Modal.close
  split
  · exact h
  · simp [(Modal.removeSpotlightState_fields _).1]

/-- The method `destroy` clears `resizeTimeout` and, given the subscription was not
active (which holds in every reachable state), leaves it inactive. -/
lemma Modal.destroy_fields (m : TSModal) (h : m.cleanUpdateActive = false) :
    (Modal.destroy m).cleanUpdateActive = false ∧
    (Modal.destroy m).resizeTimeout = none := by
  unfold Modal.destroy
  refine ⟨?_, rfl⟩
  simp [(Modal.removeSpotlightState_fields _).1, Modal.close_cleanUpdateActive_of m h]

/-- No operation can turn the auto-update flag on: the only write that sets
it is the dead `autoUpdate` call in `createModal`, which runs before
`targetElement` can ever be non-null. -/
lemma ModalOp.apply_cleanUpdateActive (m : TSModal) (op : ModalOp)
    (h : m.cleanUpdateActive = false) :
    (ModalOp.apply m op).cleanUpdateActive = false := by
  cases op with
  | opShow resolve => rw [ModalOp.apply, Modal.show_cleanUpdateActive]; exact h
  | opClose => exact Modal.close_cleanUpdateActive_of m h
  | opDestroy => exact (Modal.destroy_fields m h).1
  | opFireDetach =>
      show (Modal.fireDetach m).cleanUpdateActive = false
      unfold Modal.fireDetach
      split
      · exact h
      · exact h

/-- The constructor never installs the subscription: at `createModal` time
`this.targetElement` is still null. -/
lemma Modal.construct_cleanUpdateActive (options : ModalOptions) :
    (Modal.construct options).cleanUpdateActive = false := by
  unfold Modal.construct Modal.createModal
  simp

lemma modalFoldl_cleanUpdateActive (ops : List ModalOp) (m : TSModal)
    (h : m.cleanUpdateActive = false) :
    (ops.foldl ModalOp.apply m).cleanUpdateActive = false := by
  induction ops generalizing m with
  | nil => exact h
  | cons op ops ih => exact ih _ (ModalOp.apply_cleanUpdateActive m op h)

/-- In every reachable state of a `Modal` instance the floating-ui
auto-update subscription is not installed. -/
lemma modalReachable_cleanUpdateActive (m : TSModal) (hm : ModalReachable m) :
    m.cleanUpdateActive = false := by
  obtain ⟨options, ops, rfl⟩ := hm
  exact modalFoldl_cleanUpdateActive ops _ (Modal.construct_cleanUpdateActive options)

/-! ## Claim C2 -/

/-- C2: evaluation at the failing input.  With a target selector that
resolves to no element, `AnkiHubModal.show` (modal.js) throws: its
`applySpotlight` guards on `this.options.target` instead of the resolved
`this.targetElement` and then dereferences the null element.  The rewritten
`Modal.show` (modal.ts) on the same input completes, leaves the overlay
centered with no target element, and flags it visible — the behaviour the
claim describes. -/
theorem C2_missing_target_show_throws :
    (AHModal.show (fun _ => none)
        (AHModal.construct { body := "<p>hi</p>", target := some "#missing" })).isOk = false ∧
    (Modal.show (fun _ => none)
        (Modal.construct { body := "<p>hi</p>", target := some "#missing" })).isVisible = true ∧
    (Modal.show (fun _ => none)
        (Modal.construct { body := "<p>hi</p>", target := some "#missing" })).targetElement = none := by
  refine ⟨rfl, rfl, rfl⟩

/-! ## Claim C4 -/

/-- C4: evaluation at the failing input.  For every options record and every
resolver — in particular one whose target selector resolves to a live
element — `Modal.show` (modal.ts) installs no auto-update subscription: the
`autoUpdate` call sits in `createModal` behind `if (this.targetElement)`,
but `targetElement` is only resolved later, in `show()`, so the guard is
always false at construction time and positioning is a one-shot
computation.  By contrast `TutorialEffect.create` (part_013), which resolves
the target before the same `autoUpdate` call, does install the
subscription. -/
theorem C4_no_autoupdate_subscription :
    (∀ (options : ModalOptions) (resolve : String → Option SpotlightTarget),
      (Modal.show resolve (Modal.construct options)).cleanUpdateActive = false) ∧
    (TutorialEffect.create (fun _ => some ⟨[], "", none, some ""⟩)
        "<div>step</div>" (some "#save-btn")).cleanUpdateActive = true := by
  constructor
  · intro options resolve
    rw [Modal.show_cleanUpdateActive]
    exact Modal.construct_cleanUpdateActive options
  · rfl

/-! ## Claim C7 -/

/-- The commands produced by `n` successive resize events while one
highlight is active (tutorial.ts handler, re-reading the target's bounding
rectangle each time). -/
def resizeEventsCommands (currentStep : Int)
    (rects : List (Int × Int × Int × Int)) : List String :=
  (rects.map (fun r => resizeEventCommandsTS currentStep (some r))).flatten

/-- C7 counterexample: the `highlightAnkiHubTutorialTarget` handler in
src/ankihub/gui/web/tutorial.js destructures only `{ top, left, width }` and
its command omits the height field, so its payload does not have the claimed
`step:top:left:width:height` shape (the TS variants' command with the same
rectangle is a different, longer string). -/
theorem C7_counterexample :
    tutorialTargetResizeCommandJS 2 30 40 50 =
      "ankihub_tutorial_target_resize:2:30:40:50" ∧
    tutorialTargetResizeCommandTS 2 30 40 50 60 =
      "ankihub_tutorial_target_resize:2:30:40:50:60" ∧
    tutorialTargetResizeCommandJS 2 30 40 50 ≠
      tutorialTargetResizeCommandTS 2 30 40 50 60 := by
  refine ⟨rfl, rfl, ?_⟩
  decide

/-- C7 (amended): in the tutorial.ts / part_013 variants, every resize event
while a highlight is active sends exactly one host notification, and the
command encodes, in order, the step index and the target's current top,
left, width and height (`ankihub_tutorial_target_resize:step:top:left:width:height`);
the src/ankihub/gui/web/tutorial.js variant omits the trailing height
field. -/
theorem C7_one_notification_per_resize (currentStep : Int)
    (rects : List (Int × Int × Int × Int)) :
    (resizeEventsCommands currentStep rects).length = rects.length ∧
    resizeEventsCommands 2 [(30, 40, 50, 60)] =
      ["ankihub_tutorial_target_resize:2:30:40:50:60"] := by
  constructor
  · induction rects with
    | nil => rfl
    | cons r rs ih =>
        simpa [resizeEventsCommands, resizeEventCommandsTS] using
          congrArg Nat.succ (by simpa [resizeEventsCommands] using ih)
  · rfl

/-! ## Claim C8 -/

/-- The method `AnkiHubModal.removeSpotlight` only writes `targetElement` (and the
element it releases). -/
lemma AHModal.removeSpotlight_fields (m : AHModal) :
    (AHModal.removeSpotlight m).resizeListenerInstalled = m.resizeListenerInstalled ∧
    (AHModal.removeSpotlight m).resizeTimeout = m.resizeTimeout := by
  unfold AHModal.removeSpotlight
  cases m.targetElement <;> exact ⟨rfl, rfl⟩

/-- C8: in every reachable state of a `Modal` (modal.ts) instance — never
shown, visible, closed or already destroyed — `destroy()` completes (every
access on its path is null-guarded, so the modelled operation is total) and
leaves no auto-update subscription installed and no `resizeTimeout` pending;
and for every state of an `AnkiHubModal` (modal.js) instance, `destroy()`
removes the window resize listener and clears `resizeTimeout`
unconditionally. -/
theorem C8_destroy_safe_and_releases (m : TSModal) (hm : ModalReachable m)
    (am : AHModal) :
    (Modal.destroy m).cleanUpdateActive = false ∧
    (Modal.destroy m).resizeTimeout = none ∧
    (AHModal.destroy am).resizeListenerInstalled = false ∧
    (AHModal.destroy am).resizeTimeout = none := by
  obtain ⟨h1, h2⟩ := Modal.destroy_fields m (modalReachable_cleanUpdateActive m hm)
  refine ⟨h1, h2, ?_, ?_⟩
  · simp [AHModal.destroy, (AHModal.removeSpotlight_fields _).1]
  · simp [AHModal.destroy]

/-- C8 witness: destroying a freshly constructed (never-shown) instance of
each variant releases the subscription, the resize listener and the
timers. -/
theorem C8_destroy_safe_and_releases_witness :
    (Modal.destroy (Modal.construct {})).cleanUpdateActive = false ∧
    (Modal.destroy (Modal.construct {})).resizeTimeout = none ∧
    (AHModal.destroy (AHModal.construct {})).resizeListenerInstalled = false ∧
    (AHModal.destroy (AHModal.construct {})).resizeTimeout = none :=
  C8_destroy_safe_and_releases (Modal.construct {}) ⟨{}, [], rfl⟩ (AHModal.construct {})

/-! ## Claim C10 -/

/-- The constructor leaves the instance invisible, detached, with no pending
detach timers. -/
lemma Modal.construct_initial (options : ModalOptions) :
    (Modal.construct options).isVisible = false ∧
    (Modal.construct options).pendingDetach = 0 := by
  unfold Modal.construct Modal.createModal
  split <;> exact ⟨rfl, rfl⟩

/-- The method `close` on a visible instance schedules one more (unreferenced) 200 ms
detach timeout, clears the visibility flag and leaves the host element
attached for now. -/
lemma Modal.close_state (m : TSModal) (h : m.isVisible = true) :
    (Modal.close m).pendingDetach = m.pendingDetach + 1 ∧
    (Modal.close m).isVisible = false ∧
    (Modal.close m).attached = m.attached := by
  unfold Modal.close
  rw [if_neg (by simp [h])]
  refine ⟨?_, rfl, ?_⟩
  · simp [(Modal.removeSpotlightState_fields _).2.1]
  · simp [(Modal.removeSpotlightState_fields _).2.2.1]

lemma Modal.fireDetach_isVisible (m : TSModal) :
    (Modal.fireDetach m).isVisible = m.isVisible := by
  unfold Modal.fireDetach
  split <;> rfl

lemma Modal.fireDetach_attached (m : TSModal) (h : ¬ m.pendingDetach = 0) :
    (Modal.fireDetach m).attached = false := by
  unfold Modal.fireDetach
  rw [if_neg h]

/-- C10: `close()` schedules a 200 ms detach timeout whose handle is never
stored, and `show()` cancels nothing; so after show–close–show (the second
show within the 200 ms window), one detach timeout is still pending while
the instance is visible again, and when it fires the host element is
removed from the document although `isVisible` remains `true`: a
visible-flagged overlay with no attached DOM root. -/
theorem C10_stale_detach_timer (options : ModalOptions)
    (resolve : String → Option SpotlightTarget) :
    (Modal.close (Modal.show resolve (Modal.construct options))).pendingDetach = 1 ∧
    (Modal.show resolve (Modal.close (Modal.show resolve
        (Modal.construct options)))).pendingDetach = 1 ∧
    (Modal.fireDetach (Modal.show resolve (Modal.close (Modal.show resolve
        (Modal.construct options))))).isVisible = true ∧
    (Modal.fireDetach (Modal.show resolve (Modal.close (Modal.show resolve
        (Modal.construct options))))).attached = false := by
  obtain ⟨hV0, hP0⟩ := Modal.construct_initial options
  obtain ⟨hV1, hA1⟩ := Modal.show_isVisible resolve _ hV0
  have hP1 : (Modal.show resolve (Modal.construct options)).pendingDetach = 0 := by
    rw [Modal.show_pendingDetach]; exact hP0
  obtain ⟨hP2, hV2, hA2⟩ := Modal.close_state _ hV1
  have hP2' : (Modal.close (Modal.show resolve (Modal.construct options))).pendingDetach = 1 := by
    rw [hP2, hP1]
  obtain ⟨hV3, hA3⟩ := Modal.show_isVisible resolve _ hV2
  have hP3 : (Modal.show resolve (Modal.close (Modal.show resolve
      (Modal.construct options)))).pendingDetach = 1 := by
    rw [Modal.show_pendingDetach]; exact hP2'
  refine ⟨hP2', hP3, ?_, ?_⟩
  · rw [Modal.fireDetach_isVisible]; exact hV3
  · exact Modal.fireDetach_attached _ (by rw [hP3]; exact one_ne_zero)

/-! ## Claim C3 -/

/-- One entry-point call preserves the exclusive-ownership invariant: the
live overlays are exactly the one referenced by `activeModal`. -/
lemma tutorialStep_preserves (s : TutorialState) (op : TutorialOp)
    (h : s.liveOverlays = s.activeModal.toList) :
    (TutorialOp.apply s op).liveOverlays = (TutorialOp.apply s op).activeModal.toList := by
  have hd : (destroyActiveTutorialModal s).liveOverlays = [] ∧
      (destroyActiveTutorialModal s).activeModal = none := by
    cases hA : s.activeModal with
    | none =>
        rw [hA] at h
        simp only [Option.toList] at h
        simp [destroyActiveTutorialModal, hA, h]
    | some id =>
        rw [hA] at h
        simp only [Option.toList] at h
        simp [destroyActiveTutorialModal, hA, h]
  cases op <;>
    simp [TutorialOp.apply, promptForOnboardingTour, showTutorialModal,
      addTutorialBackdrop, highlightTutorialTarget, tutorialCreateModal,
      hd.1, hd.2]

lemma tutorialFoldl_inv (ops : List TutorialOp) (s : TutorialState)
    (h : s.liveOverlays = s.activeModal.toList) :
    (ops.foldl TutorialOp.apply s).liveOverlays =
      (ops.foldl TutorialOp.apply s).activeModal.toList := by
  induction ops generalizing s with
  | nil => exact h
  | cons op ops ih => exact ih _ (tutorialStep_preserves s op h)

/-- C3 counterexample: after `highlightTutorialTarget` (step with overlay
`0`, which installs a window-resize listener) followed by
`showTutorialModal` (overlay `1`), the resize listener installed for
overlay `0` is still installed: `destroyActiveTutorialModal` and the
non-highlight entry points never remove `targetResizeHandler`, so a resize
subscription from an earlier step survives the transition. -/
theorem C3_counterexample :
    (showTutorialModal (highlightTutorialTarget TutorialState.start)).activeModal = some 1 ∧
    (showTutorialModal (highlightTutorialTarget TutorialState.start)).resizeHandler = some 0 ∧
    ¬ (showTutorialModal (highlightTutorialTarget TutorialState.start)).resizeHandler = none := by
  refine ⟨rfl, rfl, ?_⟩
  decide

/-- C3 (amended): every entry point begins by destroying the previously
active overlay before constructing the new one, so in every reachable state
of the tutorial module the live (constructed and not destroyed) overlays
are exactly the one held in `activeModal` — at most one overlay is active at
any moment.  However, only `highlightTutorialTarget` removes a standing
window-resize subscription (and it installs the replacement after
constructing the new overlay); the other entry points leave a resize
listener from an earlier highlight step installed (see the
counterexample). -/
theorem C3_exclusive_overlay_ownership (s : TutorialState)
    (hs : TutorialReachable s) :
    s.liveOverlays = s.activeModal.toList ∧ s.liveOverlays.length ≤ 1 := by
  obtain ⟨ops, rfl⟩ := hs
  have h := tutorialFoldl_inv ops TutorialState.start rfl
  refine ⟨h, ?_⟩
  rw [h]
  cases (ops.foldl TutorialOp.apply TutorialState.start).activeModal <;> simp

/-- C3 witness: the invariant holds at the concrete reachable state reached
by a highlight followed by a step modal. -/
theorem C3_exclusive_overlay_ownership_witness :
    (showTutorialModal (highlightTutorialTarget TutorialState.start)).liveOverlays =
      (showTutorialModal (highlightTutorialTarget TutorialState.start)).activeModal.toList ∧
    (showTutorialModal (highlightTutorialTarget TutorialState.start)).liveOverlays.length ≤ 1 :=
  C3_exclusive_overlay_ownership _ ⟨[TutorialOp.highlight, TutorialOp.showModal], rfl⟩
